import Mathlib

/-!
Shallow embedding of the GPX-Analyzer core (src/app.py): the track builder
`parse_gpx`, the aggregator `calculate_features`, and the artifact pipeline
of the request handler. Numeric cells of the pandas DataFrame are modelled
with exact rationals plus explicit NaN / ±Infinity markers (`PFloat`);
missing source fields are `Option` values, and pandas' None-masking
arithmetic, NaN-skipping aggregations and IEEE division are made explicit,
as are the two error paths of the pipeline: `Series.diff()` raising
TypeError on an all-None (object-dtype) elevation column with two or more
rows, and geopy 2.x raising ValueError when a NaN coordinate cell of a
mixed float column reaches its `Point` constructor. The geodesic distance
of geopy is a parameter `dist` of the builder.
-/

namespace GPXApp

/-- A pandas float cell: a rational value, NaN, or a signed infinity. -/
inductive PFloat where
  | nan
  | inf
  | ninf
  | val (q : ℚ)
deriving DecidableEq

/-- pandas `isna`: only NaN counts as missing (infinities do not). -/
def PFloat.isna : PFloat → Bool
  | .nan => true
  | _ => false

/-- Round an integer-scaled rational to the nearest integer, ties to even
(the rounding of Python's built-in `round`). -/
def roundHalfEven (q : ℚ) : ℤ :=
  if q - ⌊q⌋ < 1/2 then ⌊q⌋
  else if 1/2 < q - ⌊q⌋ then ⌊q⌋ + 1
  else if ⌊q⌋ % 2 = 0 then ⌊q⌋ else ⌊q⌋ + 1

/-- Python `round(x, 2)` on an exact rational. -/
def round2 (q : ℚ) : ℚ := (roundHalfEven (q * 100) : ℚ) / 100

/-- `round(x, 2)` lifted to pandas cells: NaN and infinities pass through. -/
def pround2 : PFloat → PFloat
  | .nan => .nan
  | .inf => .inf
  | .ninf => .ninf
  | .val q => .val (round2 q)

/-- Multiplication of a cell by the positive constant 3.6 (km/h conversion). -/
def PFloat.mul36 : PFloat → PFloat
  | .nan => .nan
  | .inf => .inf
  | .ninf => .ninf
  | .val q => .val (q * (18/5))

/-- pandas `Series.mean()`: NaN cells are skipped; the mean of no valid cell
is NaN; any surviving infinity dominates the sum (and two opposite
infinities cancel to NaN). -/
def validCells (xs : List PFloat) : List PFloat := xs.filter fun x => ! x.isna

def pmean (xs : List PFloat) : PFloat :=
  if (validCells xs).length = 0 then .nan
  else if PFloat.inf ∈ validCells xs ∧ PFloat.ninf ∈ validCells xs then .nan
  else if PFloat.inf ∈ validCells xs then .inf
  else if PFloat.ninf ∈ validCells xs then .ninf
  else .val (((validCells xs).map fun x => match x with | .val q => q | _ => 0).sum
              / ((validCells xs).length : ℚ))

/-- One raw point as gpxpy exposes it: latitude/longitude (None when the
source attribute is malformed), optional elevation, optional timestamp
(modelled as seconds on a common clock). -/
structure RawPoint where
  latitude : Option ℚ
  longitude : Option ℚ
  elevation : Option ℚ
  time : Option ℚ
deriving DecidableEq

/-- One `<trkseg>` of the GPX source. -/
structure GpxSegment where
  points : List RawPoint
deriving DecidableEq

/-- One `<trk>` of the GPX source. -/
structure GpxTrack where
  segments : List GpxSegment
deriving DecidableEq

/-- A parsed GPX document. -/
structure Gpx where
  tracks : List GpxTrack
deriving DecidableEq

/-- The `data` list built by the triple nested loop of `parse_gpx`:
`for track in gpx.tracks: for segment in track.segments:
for point in segment.points: data.append(...)`. -/
def gpxData (g : Gpx) : List RawPoint :=
  g.tracks.foldl
    (fun data t => t.segments.foldl
      (fun data s => s.points.foldl (fun data p => data ++ [p]) data)
      data)
    []

/-- The geodesic distance supplied by geopy, abstracted: any function from
two (latitude, longitude) pairs to meters. -/
abbrev DistFn := (ℚ × ℚ) → (ℚ × ℚ) → ℚ

/-- Whether a point has both coordinate cells non-null. -/
def coordsOk (p : RawPoint) : Bool := p.latitude.isSome && p.longitude.isSome

/-- The value `calculate_distance` produces on the rows where it does not
raise: the shifted (successor) coordinates must both be non-null, else
the row's distance is 0. The raising path (current coordinate is NaN in a
mixed float column while the successor has coordinates, making geopy 2.x
raise ValueError on a non-finite coordinate) lives in `mkRows` below, so
the `getD` defaults here are never reached with a missing coordinate. -/
def distOf (dist : DistFn) (p q : RawPoint) : ℚ :=
  if coordsOk q then
    dist (p.latitude.getD 0, p.longitude.getD 0)
         ((q.latitude.getD 0), (q.longitude.getD 0))
  else 0

/-- `df['distance'] / df['time_diff']` on one row, with pandas/IEEE
semantics: NaN divisor gives NaN; a zero divisor gives NaN for a zero
numerator and a signed infinity otherwise. -/
def speedOf (d : ℚ) (td : Option ℚ) : PFloat :=
  match td with
  | none => .nan
  | some t =>
    if t = 0 then
      if d = 0 then .nan else if 0 < d then .inf else .ninf
    else .val (d / t)

/-- One row of the DataFrame returned by `parse_gpx` (after the shifted
helper columns are dropped). -/
structure Row where
  latitude : Option ℚ
  longitude : Option ℚ
  elevation : Option ℚ
  time : Option ℚ
  distance : ℚ
  speed : PFloat
deriving DecidableEq

/-- `(shifted_time - time).dt.total_seconds()` for one row: NaN (None)
unless both the point and its successor carry a timestamp. -/
def timeDiffOf (p : RawPoint) (next : Option RawPoint) : Option ℚ :=
  match next with
  | none => none
  | some q =>
    match p.time, q.time with
    | some t1, some t2 => some (t2 - t1)
    | _, _ => none

/-- Build the row for point `p` given its successor (None for the final
point). `useTime` is the track-level test `not df['time'].isnull().all()`;
when it is false the speed column is the all-None series. -/
def rowAt (dist : DistFn) (useTime : Bool) (p : RawPoint) (next : Option RawPoint) : Row :=
  let d : ℚ := match next with
    | some q => distOf dist p q
    | none => 0
  { latitude := p.latitude
    longitude := p.longitude
    elevation := p.elevation
    time := p.time
    distance := d
    speed := if useTime then speedOf d (timeDiffOf p next) else .nan }

/-- The rows the DataFrame holds when no row raises, one per data point,
each paired with its successor by the `shift(-1)` columns. -/
def mkRowsP (dist : DistFn) (useTime : Bool) : List RawPoint → List Row
  | [] => []
  | p :: rest => rowAt dist useTime p rest.head? :: mkRowsP dist useTime rest

/-- The Python exceptions the pipeline can raise. -/
inductive PyError where
  | keyError (col : String)
  | typeError (msg : String)
  | valueError (msg : String)
deriving DecidableEq

/-- Whether `calculate_distance` raises on the row of `p`: the guard only
tests the shifted (successor) coordinates, so when the successor has both
coordinates but `p` is missing one, the NaN cell of the mixed float
column is passed to geopy (NaN is truthy, surviving its `x or 0.0`), and
geopy 2.x `Point` raises ValueError on a non-finite coordinate. -/
def geodesicRaises (p : RawPoint) (next : Option RawPoint) : Bool :=
  (match next with
   | some q => coordsOk q
   | none => false) && ! coordsOk p

/-- Whether some row of the `df.apply(calculate_distance, axis=1)` pass
raises. -/
def coordsCrash : List RawPoint → Bool
  | [] => false
  | p :: rest => geodesicRaises p rest.head? || coordsCrash rest

/-- The row-wise distance pass followed by the speed column: raises at
the first row whose geodesic call receives a non-finite coordinate,
otherwise produces one row per point. -/
def mkRows (dist : DistFn) (useTime : Bool) : List RawPoint → Except PyError (List Row)
  | [] => .ok []
  | p :: rest =>
    if geodesicRaises p rest.head? then
      .error (.valueError "Point coordinates must be finite")
    else do
      let rows ← mkRows dist useTime rest
      .ok (rowAt dist useTime p rest.head? :: rows)

/-- `parse_gpx`: flatten the GPX structure into `data`, build the
DataFrame, compute distances and (when any timestamp is present) speeds.
On the empty point sequence the DataFrame has no columns, so
`df['latitude'].shift(-1)` raises `KeyError('latitude')`; a non-finite
coordinate reaching geopy raises ValueError. -/
def parse_gpx (dist : DistFn) (g : Gpx) : Except PyError (List Row) :=
  let data := gpxData g
  if data.isEmpty then .error (.keyError "latitude")
  else mkRows dist (data.any fun p => p.time.isSome) data

/-- One cell of `df['elevation'].diff().clip(lower=0)` as it enters the
NaN-skipping `sum`, on a float64 column (at least one elevation present,
None coerced to NaN): the subtraction propagates NaN, `clip` preserves
NaN, so a pair with a missing side contributes 0 to the sum. -/
def clippedDiff : Option ℚ → Option ℚ → ℚ
  | some x, some y => max 0 (y - x)
  | _, _ => 0

/-- `df['elevation'].diff().clip(lower=0).sum()` on a column that does
not raise: only the consecutive pairs with both elevations present
contribute. -/
def elevationGainRaw : List (Option ℚ) → ℚ
  | [] => 0
  | [_] => 0
  | a :: b :: rest => clippedDiff a b + elevationGainRaw (b :: rest)

/-- `df['elevation'].diff().clip(lower=0).sum()` including its error
path: a column whose values are all None has object dtype, and
`Series.diff()` on it performs the raw `None - None` subtraction, raising
TypeError as soon as there is at least one pair to subtract (two or more
rows). Otherwise the column is float64 (or too short to subtract) and
the NaN-skipping sum results. -/
def elevationDiffSum (es : List (Option ℚ)) : Except PyError ℚ :=
  if 2 ≤ es.length ∧ es.all Option.isNone then
    .error (.typeError "unsupported operand type(s) for -: NoneType and NoneType")
  else .ok (elevationGainRaw es)

/-- The triple returned by `calculate_features`. -/
structure Features where
  total_distance : ℚ
  average_speed : PFloat
  total_elevation_gain : ℚ
deriving DecidableEq

/-- `calculate_features(df)`: the distance and speed aggregations never
raise, but the elevation line raises TypeError on an all-None elevation
column with two or more rows, aborting the whole call. -/
def calculate_features (rows : List Row) : Except PyError Features :=
  match elevationDiffSum (rows.map Row.elevation) with
  | .error e => .error e
  | .ok gain =>
    .ok { total_distance := round2 ((rows.map Row.distance).sum / 1000)
          average_speed := pround2 ((pmean (rows.map Row.speed)).mul36)
          total_elevation_gain := round2 gain }

/-- Whether the external rendering calls of each artifact function
succeed. A renderer's body delegates to folium / matplotlib; the flags
stand for those library calls raising or not. -/
structure RenderEnv where
  mapRenderOk : Bool
  elevationRenderOk : Bool
  speedRenderOk : Bool

/-- `create_map(df)`: no try/except around the folium calls and the file
save, so any rendering failure propagates to the caller as an exception. -/
def create_map (env : RenderEnv) (_rows : List Row) : Except PyError String :=
  if env.mapRenderOk then .ok "static/maps/map.html"
  else .error (.typeError "map rendering failed")

/-- `create_elevation_plot(df)`: the matplotlib calls are wrapped in
try/except; a failure is printed and surfaces as None. -/
def create_elevation_plot (env : RenderEnv) (_rows : List Row) : Option String :=
  if env.elevationRenderOk then some "static/images/elevation_plot.png"
  else none

/-- `create_speed_distribution_plot(df)`: likewise wrapped in try/except,
returning None on failure. -/
def create_speed_distribution_plot (env : RenderEnv) (_rows : List Row) : Option String :=
  if env.speedRenderOk then some "static/images/speed_distribution_plot.png"
  else none

/-- The template context of a successful POST to `index`. -/
structure IndexResponse where
  total_distance : ℚ
  average_speed : PFloat
  total_elevation_gain : ℚ
  map_file_path : String
  plot_file_path : Option String
deriving DecidableEq

/-- The POST branch of `index` once a file path is fixed: parse, compute
features (uncaught — a TypeError there aborts the request), render the
map (uncaught), render the elevation plot (caught).
`create_speed_distribution_plot` is never called by the handler. -/
def indexPost (dist : DistFn) (env : RenderEnv) (g : Gpx) : Except PyError IndexResponse := do
  let df ← parse_gpx dist g
  let f ← calculate_features df
  let m ← create_map env df
  let p := create_elevation_plot env df
  .ok { total_distance := f.total_distance
        average_speed := f.average_speed
        total_elevation_gain := f.total_elevation_gain
        map_file_path := m
        plot_file_path := p }

/-- A concrete stand-in for geopy's geodesic distance, used to evaluate
the model at concrete inputs: like the geodesic it is non-negative and
positive between distinct coordinates. -/
def taxicabDist : DistFn := fun a b => |b.1 - a.1| + |b.2 - a.2|

/-- The spec's elevation-gain formula over a fully numeric elevation
sequence: the sum over consecutive pairs of `max 0 (e[i+1] - e[i])`. -/
def specElevationGain : List ℚ → ℚ
  | [] => 0
  | [_] => 0
  | a :: b :: rest => max 0 (b - a) + specElevationGain (b :: rest)

/-! Helper lemmas about the embedding. -/

lemma foldl_append_singleton {α : Type} (l : List α) (acc : List α) :
    l.foldl (fun d x => d ++ [x]) acc = acc ++ l := by
  induction l generalizing acc with
  | nil => simp
  | cons x xs ih => simp [ih]

lemma segFoldl_eq (segs : List GpxSegment) (acc : List RawPoint) :
    segs.foldl (fun data s => s.points.foldl (fun d p => d ++ [p]) data) acc
      = acc ++ (segs.map GpxSegment.points).flatten := by
  induction segs generalizing acc with
  | nil => simp
  | cons s rest ih =>
    rw [List.foldl_cons, foldl_append_singleton, ih]
    simp

lemma trackFoldl_eq (ts : List GpxTrack) (acc : List RawPoint) :
    ts.foldl (fun data t =>
        t.segments.foldl (fun data s => s.points.foldl (fun d p => d ++ [p]) data) data) acc
      = acc ++ (ts.map fun t => (t.segments.map GpxSegment.points).flatten).flatten := by
  induction ts generalizing acc with
  | nil => simp
  | cons t rest ih =>
    rw [List.foldl_cons, segFoldl_eq, ih]
    simp

lemma gpxData_eq_flatten (g : Gpx) :
    gpxData g = (g.tracks.map fun t => (t.segments.map GpxSegment.points).flatten).flatten := by
  simpa [gpxData] using trackFoldl_eq g.tracks []

lemma mkRowsP_length (dist : DistFn) (ut : Bool) (l : List RawPoint) :
    (mkRowsP dist ut l).length = l.length := by
  induction l with
  | nil => rfl
  | cons p rest ih => simp [mkRowsP, ih]

lemma mkRowsP_getElem? (dist : DistFn) (ut : Bool) (l : List RawPoint) (i : ℕ) :
    (mkRowsP dist ut l)[i]? = (l[i]?).map fun p => rowAt dist ut p l[i+1]? := by
  induction l generalizing i with
  | nil => simp [mkRowsP]
  | cons p rest ih =>
    cases i with
    | zero => cases rest <;> simp [mkRowsP]
    | succ n => simp [mkRowsP, ih]

lemma mkRowsP_map_elevation (dist : DistFn) (ut : Bool) (l : List RawPoint) :
    (mkRowsP dist ut l).map Row.elevation = l.map RawPoint.elevation := by
  induction l with
  | nil => rfl
  | cons p rest ih => simp [mkRowsP, rowAt, ih]

lemma mkRowsP_speed_nan (dist : DistFn) (l : List RawPoint) :
    ∀ r ∈ mkRowsP dist false l, r.speed = .nan := by
  induction l with
  | nil => simp [mkRowsP]
  | cons p rest ih =>
    intro r hr
    rcases List.mem_cons.mp hr with h | h
    · subst h; rfl
    · exact ih r h

lemma mkRowsP_getLast_distance (dist : DistFn) (ut : Bool) :
    ∀ l : List RawPoint, ∀ r, (mkRowsP dist ut l).getLast? = some r → r.distance = 0 := by
  intro l
  induction l with
  | nil => intro r hr; simp [mkRowsP] at hr
  | cons p rest ih =>
    intro r hr
    cases rest with
    | nil =>
      simp [mkRowsP] at hr
      subst hr; rfl
    | cons q rest' =>
      rw [mkRowsP, mkRowsP, List.getLast?_cons_cons, ← mkRowsP] at hr
      exact ih r hr

lemma mkRows_of_not_crash (dist : DistFn) (ut : Bool) :
    ∀ l : List RawPoint, coordsCrash l = false →
      mkRows dist ut l = .ok (mkRowsP dist ut l) := by
  intro l
  induction l with
  | nil => intro _; rfl
  | cons p rest ih =>
    intro h
    rw [coordsCrash, Bool.or_eq_false_iff] at h
    rw [mkRows, if_neg (by rw [h.1]; exact Bool.false_ne_true), ih h.2]
    rfl

lemma mkRows_of_crash (dist : DistFn) (ut : Bool) :
    ∀ l : List RawPoint, coordsCrash l = true →
      mkRows dist ut l = .error (.valueError "Point coordinates must be finite") := by
  intro l
  induction l with
  | nil => intro h; simp [coordsCrash] at h
  | cons p rest ih =>
    intro h
    rw [coordsCrash, Bool.or_eq_true] at h
    by_cases hg : geodesicRaises p rest.head? = true
    · rw [mkRows, if_pos hg]
    · rcases h with h | h
      · exact absurd h hg
      · rw [mkRows, if_neg hg, ih h]
        rfl

lemma mkRows_ok_inv (dist : DistFn) (ut : Bool) (l : List RawPoint) (rows : List Row)
    (h : mkRows dist ut l = .ok rows) :
    coordsCrash l = false ∧ rows = mkRowsP dist ut l := by
  by_cases hc : coordsCrash l = true
  · rw [mkRows_of_crash dist ut l hc] at h
    exact absurd h (by simp)
  · have hc' : coordsCrash l = false := by simpa using hc
    rw [mkRows_of_not_crash dist ut l hc'] at h
    exact ⟨hc', (Except.ok.inj h).symm⟩

lemma pmean_nan (xs : List PFloat) (h : ∀ x ∈ xs, x = .nan) : pmean xs = .nan := by
  have hf : validCells xs = [] := by
    rw [validCells, List.filter_eq_nil_iff]
    intro a ha
    rw [h a ha]
    decide
  simp [pmean, hf]

lemma roundHalfEven_nonneg {q : ℚ} (h : 0 ≤ q) : 0 ≤ roundHalfEven q := by
  have hf : (0 : ℤ) ≤ ⌊q⌋ := Int.floor_nonneg.mpr h
  unfold roundHalfEven
  split_ifs <;> omega

lemma round2_nonneg {q : ℚ} (h : 0 ≤ q) : 0 ≤ round2 q := by
  have h1 : (0 : ℤ) ≤ roundHalfEven (q * 100) :=
    roundHalfEven_nonneg (by positivity)
  unfold round2
  have h2 : (0 : ℚ) ≤ (roundHalfEven (q * 100) : ℚ) := by exact_mod_cast h1
  positivity

lemma roundHalfEven_zero : roundHalfEven 0 = 0 := by
  norm_num [roundHalfEven]

lemma round2_zero : round2 0 = 0 := by
  norm_num [round2, roundHalfEven_zero]

lemma elevationGainRaw_nonneg (es : List (Option ℚ)) : 0 ≤ elevationGainRaw es := by
  induction es with
  | nil => simp [elevationGainRaw]
  | cons a tail ih =>
    cases tail with
    | nil => simp [elevationGainRaw]
    | cons b rest =>
      rw [elevationGainRaw]
      refine add_nonneg ?_ ih
      cases a <;> cases b <;> simp [clippedDiff, le_max_left]

lemma elevationGainRaw_map_some (es : List ℚ) :
    elevationGainRaw (es.map some) = specElevationGain es := by
  induction es with
  | nil => rfl
  | cons a tail ih =>
    cases tail with
    | nil => rfl
    | cons b rest =>
      rw [List.map_cons, List.map_cons, elevationGainRaw, specElevationGain]
      rw [← List.map_cons]
      rw [ih]
      rfl

lemma specElevationGain_of_nonincreasing :
    ∀ es : List ℚ, List.Chain' (fun a b => b ≤ a) es → specElevationGain es = 0 := by
  intro es
  induction es with
  | nil => intro _; rfl
  | cons a tail ih =>
    intro hch
    cases tail with
    | nil => rfl
    | cons b rest =>
      rw [List.chain'_cons] at hch
      rw [specElevationGain, ih hch.2]
      have : b - a ≤ 0 := sub_nonpos.mpr hch.1
      simp [max_eq_left this]

/-- A GPX document with one track holding one segment: the shape the
flattened point list is equivalent to. -/
def singleSegmentGpx (pts : List RawPoint) : Gpx := ⟨[⟨[⟨pts⟩]⟩]⟩

lemma gpxData_singleSegment (pts : List RawPoint) :
    gpxData (singleSegmentGpx pts) = pts := by
  simp [gpxData_eq_flatten, singleSegmentGpx]

lemma parse_ok_eq (dist : DistFn) (g : Gpx) (rows : List Row)
    (hok : parse_gpx dist g = .ok rows) :
    rows = mkRowsP dist ((gpxData g).any fun p => p.time.isSome) (gpxData g)
      ∧ gpxData g ≠ [] ∧ coordsCrash (gpxData g) = false := by
  unfold parse_gpx at hok
  by_cases h : (gpxData g).isEmpty
  · rw [if_pos h] at hok
    exact absurd hok (by simp)
  · rw [if_neg h] at hok
    obtain ⟨hc, hr⟩ := mkRows_ok_inv _ _ _ _ hok
    exact ⟨hr, by simpa [List.isEmpty_iff] using h, hc⟩

lemma speeds_nan_of_timeless (dist : DistFn) (g : Gpx) (rows : List Row)
    (hok : parse_gpx dist g = .ok rows) (ht : ∀ p ∈ gpxData g, p.time = none) :
    ∀ r ∈ rows, r.speed = .nan := by
  obtain ⟨hrows, -, -⟩ := parse_ok_eq dist g rows hok
  have hut : ((gpxData g).any fun p => p.time.isSome) = false := by
    rw [List.any_eq_false]
    intro p hp
    rw [ht p hp]
    decide
  rw [hrows, hut]
  exact mkRowsP_speed_nan dist (gpxData g)

lemma parse_rows_getElem (dist : DistFn) (g : Gpx) (rows : List Row)
    (hok : parse_gpx dist g = .ok rows) (i : ℕ) :
    rows[i]? = ((gpxData g)[i]?).map fun p =>
      rowAt dist ((gpxData g).any fun p => p.time.isSome) p (gpxData g)[i+1]? := by
  obtain ⟨hrows, -, -⟩ := parse_ok_eq dist g rows hok
  rw [hrows, mkRowsP_getElem?]

lemma any_time_of_getElem (g : Gpx) (i : ℕ) (p : RawPoint) (t : ℚ)
    (hp : (gpxData g)[i]? = some p) (ht : p.time = some t) :
    ((gpxData g).any fun p => p.time.isSome) = true := by
  rw [List.any_eq_true]
  exact ⟨p, List.mem_iff_getElem?.mpr ⟨i, hp⟩, by rw [ht]; rfl⟩

lemma mkRowsP_distance_nonneg (dist : DistFn) (hd : ∀ a b, 0 ≤ dist a b)
    (ut : Bool) (l : List RawPoint) :
    ∀ r ∈ mkRowsP dist ut l, 0 ≤ r.distance := by
  induction l with
  | nil => simp [mkRowsP]
  | cons p rest ih =>
    intro r hr
    rcases List.mem_cons.mp hr with h | h
    · subst h
      rcases rest.head? with - | q
      · exact le_refl 0
      · show 0 ≤ distOf dist p q
        unfold distOf
        split
        · exact hd _ _
        · exact le_refl 0
    · exact ih r h

lemma taxicabDist_nonneg : ∀ a b, 0 ≤ taxicabDist a b := by
  intro a b
  unfold taxicabDist
  positivity

lemma calculate_features_ok_of_cond (rows : List Row)
    (h : ¬(2 ≤ (rows.map Row.elevation).length ∧
           (rows.map Row.elevation).all Option.isNone)) :
    calculate_features rows = .ok
      { total_distance := round2 ((rows.map Row.distance).sum / 1000)
        average_speed := pround2 ((pmean (rows.map Row.speed)).mul36)
        total_elevation_gain := round2 (elevationGainRaw (rows.map Row.elevation)) } := by
  rw [calculate_features, elevationDiffSum, if_neg h]

lemma calculate_features_error_of_noElev (rows : List Row)
    (h2 : 2 ≤ rows.length) (hall : ∀ e ∈ rows.map Row.elevation, e = none) :
    calculate_features rows
      = .error (.typeError "unsupported operand type(s) for -: NoneType and NoneType") := by
  have hcond : 2 ≤ (rows.map Row.elevation).length ∧
      (rows.map Row.elevation).all Option.isNone := by
    constructor
    · simpa using h2
    · rw [List.all_eq_true]
      intro e he
      rw [hall e he]
      rfl
  rw [calculate_features, elevationDiffSum, if_pos hcond]

lemma calculate_features_ok_inv (rows : List Row) (f : Features)
    (h : calculate_features rows = .ok f) :
    f = { total_distance := round2 ((rows.map Row.distance).sum / 1000)
          average_speed := pround2 ((pmean (rows.map Row.speed)).mul36)
          total_elevation_gain := round2 (elevationGainRaw (rows.map Row.elevation)) } := by
  by_cases hc : 2 ≤ (rows.map Row.elevation).length ∧
      (rows.map Row.elevation).all Option.isNone
  · rw [calculate_features, elevationDiffSum, if_pos hc] at h
    exact absurd h (by simp)
  · rw [calculate_features_ok_of_cond rows hc] at h
    exact (Except.ok.inj h).symm

/-! Concrete inputs used by the counterexamples and witnesses below. -/

/-- Three points a fixed coordinate step apart; the first two carry
timestamps 0 s and 10 s, the third carries none. -/
def exPartialTime : Gpx := singleSegmentGpx
  [⟨some 0, some 0, none, some 0⟩, ⟨some 0, some 1, none, some 10⟩,
   ⟨some 0, some 2, none, none⟩]

/-- Two distinct points carrying the identical timestamp 5 s. -/
def exZeroDuration : Gpx := singleSegmentGpx
  [⟨some 0, some 0, some 0, some 5⟩, ⟨some 0, some 1, some 0, some 5⟩]

/-- A single point whose source record has no elevation. -/
def exNoElevation : Gpx := singleSegmentGpx [⟨some 1, some 2, none, none⟩]

/-- Two distinct points with decreasing timestamps (10 s then 0 s). -/
def exBackwardsTime : Gpx := singleSegmentGpx
  [⟨some 0, some 0, none, some 10⟩, ⟨some 0, some 1, none, some 0⟩]

/-- A minimal one-point track for exercising the request pipeline. -/
def exOnePoint : Gpx := singleSegmentGpx [⟨some 0, some 0, some 0, none⟩]

/-- Two timeless points with elevations 100 m and 130 m. -/
def exClimb : Gpx := singleSegmentGpx
  [⟨some 0, some 0, some 100, none⟩, ⟨some 0, some 1, some 130, none⟩]

/-- Two timeless points with elevations 100 m and 80 m (non-increasing). -/
def exDescent : Gpx := singleSegmentGpx
  [⟨some 0, some 0, some 100, none⟩, ⟨some 0, some 1, some 80, none⟩]

/-- One track holding two one-point segments, to cross a segment border. -/
def exTwoSegments : Gpx :=
  ⟨[⟨[⟨[⟨some 0, some 0, none, none⟩]⟩, ⟨[⟨some 0, some 1, none, none⟩]⟩]⟩]⟩

/-- Two time-less points, no elevation anywhere. -/
def exTimelessNoElev : Gpx := singleSegmentGpx
  [⟨some 5, some 5, none, none⟩, ⟨some 5, some 6, none, none⟩]

/-- The rows the builder produces for `exTimelessNoElev`. -/
def rowsTimelessNoElev : List Row :=
  [⟨some 5, some 5, none, none, 1, PFloat.nan⟩,
   ⟨some 5, some 6, none, none, 0, PFloat.nan⟩]

/-! Claim C1. -/

/-- C1 counterexample: on a track whose third point lacks a timestamp, the
first segment's speed is still the computed value 1/10 m/s — a point's
time IS used although not every point carries a timestamp, so deciding
time-awareness is not all-or-nothing. -/
theorem C1_counterexample :
    (gpxData exPartialTime).map RawPoint.time = [some 0, some 10, none] ∧
    (parse_gpx taxicabDist exPartialTime).map (List.map Row.speed)
      = .ok [PFloat.val (1/10), PFloat.nan, PFloat.nan] ∧
    PFloat.val (1/10) ≠ PFloat.nan := by
  refine ⟨rfl, ?_, by simp⟩
  norm_num [parse_gpx, exPartialTime, gpxData_singleSegment, mkRows, geodesicRaises, coordsOk, bind, Except.bind, rowAt,
    distOf, speedOf, timeDiffOf, taxicabDist, Except.map]

/-- C1 (amended): time usage is decided by whether at least one point
carries a timestamp. If no point does, every segment's speed is undefined
(NaN); if any point does, timestamps are used segment by segment, and a
segment whose two endpoints both carry timestamps (with a non-zero
difference) gets the computed speed `distance / (t2 - t1)` even when other
points lack timestamps. -/
theorem C1_time_usage (dist : DistFn) (g : Gpx) (rows : List Row)
    (hok : parse_gpx dist g = .ok rows) :
    ((∀ p ∈ gpxData g, p.time = none) → ∀ r ∈ rows, r.speed = PFloat.nan) ∧
    (∀ i p q t1 t2, (gpxData g)[i]? = some p → (gpxData g)[i+1]? = some q →
        p.time = some t1 → q.time = some t2 → t2 - t1 ≠ 0 →
        ∃ r, rows[i]? = some r ∧
          r.speed = PFloat.val (distOf dist p q / (t2 - t1))) := by
  constructor
  · exact speeds_nan_of_timeless dist g rows hok
  · intro i p q t1 t2 hp hq hpt hqt hne
    have hut := any_time_of_getElem g i p t1 hp hpt
    refine ⟨rowAt dist true p (some q), ?_, ?_⟩
    · rw [parse_rows_getElem dist g rows hok i, hp, hq, hut]
      rfl
    · show (rowAt dist true p (some q)).speed = _
      simp only [rowAt, timeDiffOf, hpt, hqt, if_true]
      rw [speedOf, if_neg hne]

/-- The rows the builder produces for `exPartialTime`. -/
def rowsPartialTime : List Row :=
  [⟨some 0, some 0, none, some 0, 1, PFloat.val (1/10)⟩,
   ⟨some 0, some 1, none, some 10, 1, PFloat.nan⟩,
   ⟨some 0, some 2, none, none, 0, PFloat.nan⟩]

/-- Witness for C1: the amended theorem applied to the concrete
three-point track whose last point lacks a timestamp. -/
theorem C1_time_usage_witness :
    parse_gpx taxicabDist exPartialTime = .ok rowsPartialTime ∧
    (((∀ p ∈ gpxData exPartialTime, p.time = none) →
        ∀ r ∈ rowsPartialTime, r.speed = PFloat.nan) ∧
     (∀ i p q t1 t2, (gpxData exPartialTime)[i]? = some p →
        (gpxData exPartialTime)[i+1]? = some q →
        p.time = some t1 → q.time = some t2 → t2 - t1 ≠ 0 →
        ∃ r, rowsPartialTime[i]? = some r ∧
          r.speed = PFloat.val (distOf taxicabDist p q / (t2 - t1)))) :=
  ⟨by norm_num [parse_gpx, exPartialTime, gpxData_singleSegment, mkRows, geodesicRaises, coordsOk, bind, Except.bind, rowAt,
      distOf, speedOf, timeDiffOf, taxicabDist, rowsPartialTime],
   C1_time_usage taxicabDist exPartialTime rowsPartialTime
     (by norm_num [parse_gpx, exPartialTime, gpxData_singleSegment, mkRows, geodesicRaises, coordsOk, bind, Except.bind, rowAt,
        distOf, speedOf, timeDiffOf, taxicabDist, rowsPartialTime])⟩

/-! Claim C2. -/

/-- C2 counterexample: on two distinct points with identical timestamps
(duration 0 s) and elevations present (so that summarization completes),
the division is performed and yields +Infinity, which propagates into the
speed column and into the returned average speed — not Absent, and a
division-by-zero result does propagate. -/
theorem C2_counterexample :
    (parse_gpx taxicabDist exZeroDuration).map
        (fun rows => (rows.map Row.speed, (calculate_features rows).map Features.average_speed))
      = .ok ([PFloat.inf, PFloat.nan], .ok PFloat.inf) ∧
    PFloat.inf ≠ PFloat.nan := by
  constructor
  · norm_num [parse_gpx, exZeroDuration, gpxData_singleSegment, mkRows, geodesicRaises,
      coordsOk, bind, Except.bind, rowAt,
      distOf, speedOf, timeDiffOf, taxicabDist, Except.map, calculate_features,
      elevationDiffSum, pmean, validCells, PFloat.isna, PFloat.mul36, pround2]
    rfl
  · simp

/-- C2 (amended): the division `distance / duration` is performed
unconditionally. On a segment whose endpoints carry the identical
timestamp (duration 0 s) the pandas/IEEE quotient results: NaN when the
distance is 0 (the same-coordinates case, which downstream aggregation
treats as missing), and a signed infinity otherwise — +Infinity for a
positive distance — which propagates; no exception is raised. -/
theorem C2_zero_duration (dist : DistFn) (g : Gpx) (rows : List Row) (i : ℕ)
    (p q : RawPoint) (t : ℚ) (hok : parse_gpx dist g = .ok rows)
    (hp : (gpxData g)[i]? = some p) (hq : (gpxData g)[i+1]? = some q)
    (hpt : p.time = some t) (hqt : q.time = some t) :
    ∃ r, rows[i]? = some r ∧
      r.speed = (if distOf dist p q = 0 then PFloat.nan
                 else if 0 < distOf dist p q then PFloat.inf else PFloat.ninf) := by
  have hut := any_time_of_getElem g i p t hp hpt
  refine ⟨rowAt dist true p (some q), ?_, ?_⟩
  · rw [parse_rows_getElem dist g rows hok i, hp, hq, hut]
    rfl
  · show (rowAt dist true p (some q)).speed = _
    simp only [rowAt, timeDiffOf, hpt, hqt, if_true]
    rw [speedOf]
    simp

/-- The rows the builder produces for `exZeroDuration`. -/
def rowsZeroDuration : List Row :=
  [⟨some 0, some 0, some 0, some 5, 1, PFloat.inf⟩,
   ⟨some 0, some 1, some 0, some 5, 0, PFloat.nan⟩]

/-- Witness for C2: the amended theorem applied to the concrete
zero-duration track. -/
theorem C2_zero_duration_witness :
    parse_gpx taxicabDist exZeroDuration = .ok rowsZeroDuration ∧
    ∃ r, rowsZeroDuration[0]? = some r ∧
      r.speed = (if distOf taxicabDist ⟨some 0, some 0, some 0, some 5⟩
                      ⟨some 0, some 1, some 0, some 5⟩ = 0 then PFloat.nan
                 else if 0 < distOf taxicabDist ⟨some 0, some 0, some 0, some 5⟩
                      ⟨some 0, some 1, some 0, some 5⟩ then PFloat.inf else PFloat.ninf) :=
  ⟨by norm_num [parse_gpx, exZeroDuration, gpxData_singleSegment, mkRows, geodesicRaises, coordsOk, bind, Except.bind, rowAt,
      distOf, speedOf, timeDiffOf, taxicabDist, rowsZeroDuration],
   C2_zero_duration taxicabDist exZeroDuration rowsZeroDuration 0 _ _ 5
     (by norm_num [parse_gpx, exZeroDuration, gpxData_singleSegment, mkRows, geodesicRaises, coordsOk, bind, Except.bind, rowAt,
        distOf, speedOf, timeDiffOf, taxicabDist, rowsZeroDuration])
     rfl rfl rfl rfl⟩

/-! Claim C3. -/

/-- C4 counterexample: on a parsed two-point track with no elevation
values, the elevation aggregation raises TypeError — calculate_features
returns no total_elevation_gain at all, so the gain neither equals the
clipped-diff sum nor is ≥ 0 for that track. -/
theorem C4_counterexample :
    parse_gpx taxicabDist exTimelessNoElev = .ok rowsTimelessNoElev ∧
    calculate_features rowsTimelessNoElev
      = .error (.typeError "unsupported operand type(s) for -: NoneType and NoneType") := by
  constructor
  · norm_num [parse_gpx, exTimelessNoElev, gpxData_singleSegment, mkRows, geodesicRaises,
      coordsOk, bind, Except.bind, rowAt, distOf, taxicabDist, rowsTimelessNoElev]
  · norm_num [calculate_features, elevationDiffSum, rowsTimelessNoElev]

/-- C4 (amended): whenever summarization completes, total_elevation_gain
is non-negative; when every point carries an elevation, summarization
does complete and the gain is the 2-decimal rounding of the sum over
consecutive pairs of `max 0 (e[i+1] - e[i])`, which is 0 for a
monotonically non-increasing elevation sequence. But on a track with two
or more points and no elevation value anywhere, the all-None elevation
column makes the aggregation raise TypeError instead of returning. -/
theorem C4_elevation_gain (dist : DistFn) (g : Gpx) (rows : List Row)
    (hok : parse_gpx dist g = .ok rows) :
    (∀ f, calculate_features rows = .ok f → 0 ≤ f.total_elevation_gain) ∧
    (∀ es : List ℚ, (gpxData g).map RawPoint.elevation = es.map some →
      ∃ f, calculate_features rows = .ok f ∧
        f.total_elevation_gain = round2 (specElevationGain es) ∧
        (List.Chain' (fun a b => b ≤ a) es → f.total_elevation_gain = 0)) ∧
    (2 ≤ rows.length → (∀ e ∈ rows.map Row.elevation, e = none) →
      calculate_features rows
        = .error (.typeError "unsupported operand type(s) for -: NoneType and NoneType")) := by
  obtain ⟨hrows, -, -⟩ := parse_ok_eq dist g rows hok
  have hmap : rows.map Row.elevation = (gpxData g).map RawPoint.elevation := by
    rw [hrows, mkRowsP_map_elevation]
  refine ⟨?_, ?_, calculate_features_error_of_noElev rows⟩
  · intro f hf
    rw [calculate_features_ok_inv rows f hf]
    exact round2_nonneg (elevationGainRaw_nonneg _)
  · intro es hes
    have hes' : rows.map Row.elevation = es.map some := by rw [hmap, hes]
    have hnc : ¬(2 ≤ (rows.map Row.elevation).length ∧
        (rows.map Row.elevation).all Option.isNone) := by
      rintro ⟨hlen, hall⟩
      rw [hes'] at hlen hall
      rcases es with - | ⟨a, es'⟩
      · simp at hlen
      · simp at hall
    refine ⟨_, calculate_features_ok_of_cond rows hnc, ?_, ?_⟩
    · show round2 (elevationGainRaw (rows.map Row.elevation)) = _
      rw [hes', elevationGainRaw_map_some]
    · intro hch
      show round2 (elevationGainRaw (rows.map Row.elevation)) = 0
      rw [hes', elevationGainRaw_map_some,
        specElevationGain_of_nonincreasing es hch, round2_zero]

/-- The rows the builder produces for `exClimb`. -/
def rowsClimb : List Row :=
  [⟨some 0, some 0, some 100, none, 1, PFloat.nan⟩,
   ⟨some 0, some 1, some 130, none, 0, PFloat.nan⟩]

/-- Witness for C4: the amended theorem applied to the concrete
100 m → 130 m climb, whose elevations are all present. -/
theorem C4_elevation_gain_witness :
    parse_gpx taxicabDist exClimb = .ok rowsClimb ∧
    ((∀ f, calculate_features rowsClimb = .ok f → 0 ≤ f.total_elevation_gain) ∧
     (∀ es : List ℚ, (gpxData exClimb).map RawPoint.elevation = es.map some →
       ∃ f, calculate_features rowsClimb = .ok f ∧
         f.total_elevation_gain = round2 (specElevationGain es) ∧
         (List.Chain' (fun a b => b ≤ a) es → f.total_elevation_gain = 0)) ∧
     (2 ≤ rowsClimb.length → (∀ e ∈ rowsClimb.map Row.elevation, e = none) →
       calculate_features rowsClimb
         = .error (.typeError "unsupported operand type(s) for -: NoneType and NoneType"))) :=
  ⟨by norm_num [parse_gpx, exClimb, gpxData_singleSegment, mkRows, geodesicRaises, coordsOk, bind, Except.bind, rowAt,
      distOf, speedOf, timeDiffOf, taxicabDist, rowsClimb],
   C4_elevation_gain taxicabDist exClimb rowsClimb
     (by norm_num [parse_gpx, exClimb, gpxData_singleSegment, mkRows, geodesicRaises, coordsOk, bind, Except.bind, rowAt,
        distOf, speedOf, timeDiffOf, taxicabDist, rowsClimb])⟩

/-! Claim C5. -/

/-- C5 counterexample: a time-less two-point track with no elevation
values makes summarize raise TypeError — it does not complete, so no
Absent average and no other statistics are returned for that track. -/
theorem C5_counterexample :
    parse_gpx taxicabDist exTimelessNoElev = .ok rowsTimelessNoElev ∧
    (∀ p ∈ gpxData exTimelessNoElev, p.time = none) ∧
    calculate_features rowsTimelessNoElev
      = .error (.typeError "unsupported operand type(s) for -: NoneType and NoneType") := by
  refine ⟨?_, by decide, ?_⟩
  · norm_num [parse_gpx, exTimelessNoElev, gpxData_singleSegment, mkRows, geodesicRaises,
      coordsOk, bind, Except.bind, rowAt, distOf, taxicabDist, rowsTimelessNoElev]
  · norm_num [calculate_features, elevationDiffSum, rowsTimelessNoElev]

/-- C5 (amended): for a time-less track whose summarization completes,
average_speed is NaN — the pandas missing marker, not zero and not an
error — alongside the two other statistics. But summarization does not
complete for every time-less track: with two or more points and no
elevation value anywhere it raises TypeError at the elevation
aggregation. -/
theorem C5_timeless_summary (dist : DistFn) (g : Gpx) (rows : List Row)
    (hok : parse_gpx dist g = .ok rows)
    (ht : ∀ p ∈ gpxData g, p.time = none) :
    (∀ f, calculate_features rows = .ok f →
      f.average_speed = PFloat.nan ∧
      PFloat.nan ≠ PFloat.val 0 ∧
      f = { total_distance := round2 ((rows.map Row.distance).sum / 1000)
            average_speed := PFloat.nan
            total_elevation_gain := round2 (elevationGainRaw (rows.map Row.elevation)) }) ∧
    (2 ≤ rows.length → (∀ e ∈ rows.map Row.elevation, e = none) →
      calculate_features rows
        = .error (.typeError "unsupported operand type(s) for -: NoneType and NoneType")) := by
  refine ⟨?_, calculate_features_error_of_noElev rows⟩
  intro f hf
  have hs : ∀ x ∈ rows.map Row.speed, x = PFloat.nan := by
    intro x hx
    obtain ⟨r, hr, hxeq⟩ := List.mem_map.mp hx
    rw [← hxeq]
    exact speeds_nan_of_timeless dist g rows hok ht r hr
  have havg : pround2 (PFloat.mul36 (pmean (rows.map Row.speed))) = PFloat.nan := by
    rw [pmean_nan _ hs]
    rfl
  have hfe := calculate_features_ok_inv rows f hf
  refine ⟨?_, by simp, ?_⟩
  · rw [hfe]
    exact havg
  · rw [hfe, havg]

/-- The rows the builder produces for `exDescent`. -/
def rowsDescent : List Row :=
  [⟨some 0, some 0, some 100, none, 1, PFloat.nan⟩,
   ⟨some 0, some 1, some 80, none, 0, PFloat.nan⟩]

/-- Witness for C5: the amended theorem applied to the concrete
time-less two-point descent, whose elevations are present. -/
theorem C5_timeless_summary_witness :
    parse_gpx taxicabDist exDescent = .ok rowsDescent ∧
    (∀ p ∈ gpxData exDescent, p.time = none) ∧
    ((∀ f, calculate_features rowsDescent = .ok f →
       f.average_speed = PFloat.nan ∧
       PFloat.nan ≠ PFloat.val 0 ∧
       f = { total_distance := round2 ((rowsDescent.map Row.distance).sum / 1000)
             average_speed := PFloat.nan
             total_elevation_gain :=
               round2 (elevationGainRaw (rowsDescent.map Row.elevation)) }) ∧
     (2 ≤ rowsDescent.length → (∀ e ∈ rowsDescent.map Row.elevation, e = none) →
       calculate_features rowsDescent
         = .error (.typeError "unsupported operand type(s) for -: NoneType and NoneType"))) :=
  ⟨by norm_num [parse_gpx, exDescent, gpxData_singleSegment, mkRows, geodesicRaises,
      coordsOk, bind, Except.bind, rowAt, distOf, taxicabDist, rowsDescent],
   by decide,
   C5_timeless_summary taxicabDist exDescent rowsDescent
     (by norm_num [parse_gpx, exDescent, gpxData_singleSegment, mkRows, geodesicRaises,
        coordsOk, bind, Except.bind, rowAt, distOf, taxicabDist, rowsDescent])
     (by decide)⟩

/-! Claim C6. -/

/-- C6 counterexample: a point whose source record has no elevation keeps
a missing (None) elevation in the built track — it is not assigned 0. -/
theorem C6_counterexample :
    (parse_gpx taxicabDist exNoElevation).map (List.map Row.elevation)
      = .ok [(none : Option ℚ)] ∧
    (none : Option ℚ) ≠ some 0 := by
  constructor
  · norm_num [parse_gpx, exNoElevation, gpxData_singleSegment, mkRows, geodesicRaises, coordsOk, bind, Except.bind, rowAt, Except.map]
  · simp

/-- C6 (amended): the built track stores each point's source elevation
unchanged — a missing elevation stays missing (None/NaN); it is never
assigned 0. The all-zero elevation column is only created when the point
list itself is empty, in which case there is no point to receive it. -/
theorem C6_elevation_passthrough (dist : DistFn) (g : Gpx) (rows : List Row)
    (hok : parse_gpx dist g = .ok rows) :
    rows.map Row.elevation = (gpxData g).map RawPoint.elevation := by
  obtain ⟨hrows, -, -⟩ := parse_ok_eq dist g rows hok
  rw [hrows, mkRowsP_map_elevation]

/-- Witness for C6: the amended theorem applied to the concrete
elevation-less one-point track. -/
theorem C6_elevation_passthrough_witness :
    parse_gpx taxicabDist exNoElevation = .ok [⟨some 1, some 2, none, none, 0, PFloat.nan⟩] ∧
    [(⟨some 1, some 2, none, none, 0, PFloat.nan⟩ : Row)].map Row.elevation
      = (gpxData exNoElevation).map RawPoint.elevation :=
  ⟨by norm_num [parse_gpx, exNoElevation, gpxData_singleSegment, mkRows, geodesicRaises, coordsOk, bind, Except.bind, rowAt],
   C6_elevation_passthrough taxicabDist exNoElevation _
     (by norm_num [parse_gpx, exNoElevation, gpxData_singleSegment, mkRows, geodesicRaises, coordsOk, bind, Except.bind, rowAt])⟩

/-! Claim C7. -/

/-- C7 counterexample: with non-monotonic timestamps (10 s then 0 s) over
a positive distance, the segment's speed is the negative value −1/10 m/s —
defined and negative, not undefined. -/
theorem C7_counterexample :
    (parse_gpx taxicabDist exBackwardsTime).map (List.map Row.speed)
      = .ok [PFloat.val (-(1/10)), PFloat.nan] ∧
    (-(1/10) : ℚ) < 0 := by
  constructor
  · norm_num [parse_gpx, exBackwardsTime, gpxData_singleSegment, mkRows, geodesicRaises, coordsOk, bind, Except.bind, rowAt,
      distOf, speedOf, timeDiffOf, taxicabDist, Except.map]
  · norm_num

/-- C7 (amended): distance_m is non-negative for every segment (the
geodesic is non-negative), but a defined speed need not be: a segment with
a negative duration and positive distance gets the negative quotient
`distance / (t2 - t1)` — non-monotonic timestamps produce negative speeds
rather than an undefined speed. -/
theorem C7_distance_speed_signs (dist : DistFn) (g : Gpx) (rows : List Row)
    (hd : ∀ a b, 0 ≤ dist a b) (hok : parse_gpx dist g = .ok rows) :
    (∀ r ∈ rows, 0 ≤ r.distance) ∧
    (∀ i p q t1 t2, (gpxData g)[i]? = some p → (gpxData g)[i+1]? = some q →
      p.time = some t1 → q.time = some t2 → t2 - t1 < 0 → 0 < distOf dist p q →
      ∃ r, rows[i]? = some r ∧
        r.speed = PFloat.val (distOf dist p q / (t2 - t1)) ∧
        distOf dist p q / (t2 - t1) < 0) := by
  obtain ⟨hrows, -, -⟩ := parse_ok_eq dist g rows hok
  constructor
  · rw [hrows]
    exact mkRowsP_distance_nonneg dist hd _ _
  · intro i p q t1 t2 hp hq hpt hqt hneg hdpos
    have hut := any_time_of_getElem g i p t1 hp hpt
    refine ⟨rowAt dist true p (some q), ?_, ?_, div_neg_of_pos_of_neg hdpos hneg⟩
    · rw [parse_rows_getElem dist g rows hok i, hp, hq, hut]
      rfl
    · show (rowAt dist true p (some q)).speed = _
      simp only [rowAt, timeDiffOf, hpt, hqt, if_true]
      rw [speedOf, if_neg (ne_of_lt hneg)]

/-- The rows the builder produces for `exBackwardsTime`. -/
def rowsBackwardsTime : List Row :=
  [⟨some 0, some 0, none, some 10, 1, PFloat.val (-(1/10))⟩,
   ⟨some 0, some 1, none, some 0, 0, PFloat.nan⟩]

/-- Witness for C7: the amended theorem applied to the concrete
backwards-timestamped track. -/
theorem C7_distance_speed_signs_witness :
    parse_gpx taxicabDist exBackwardsTime = .ok rowsBackwardsTime ∧
    ((∀ r ∈ rowsBackwardsTime, 0 ≤ r.distance) ∧
     (∀ i p q t1 t2, (gpxData exBackwardsTime)[i]? = some p →
       (gpxData exBackwardsTime)[i+1]? = some q →
       p.time = some t1 → q.time = some t2 → t2 - t1 < 0 → 0 < distOf taxicabDist p q →
       ∃ r, rowsBackwardsTime[i]? = some r ∧
         r.speed = PFloat.val (distOf taxicabDist p q / (t2 - t1)) ∧
         distOf taxicabDist p q / (t2 - t1) < 0)) :=
  ⟨by norm_num [parse_gpx, exBackwardsTime, gpxData_singleSegment, mkRows, geodesicRaises, coordsOk, bind, Except.bind, rowAt,
      distOf, speedOf, timeDiffOf, taxicabDist, rowsBackwardsTime],
   C7_distance_speed_signs taxicabDist exBackwardsTime rowsBackwardsTime
     taxicabDist_nonneg
     (by norm_num [parse_gpx, exBackwardsTime, gpxData_singleSegment, mkRows, geodesicRaises, coordsOk, bind, Except.bind, rowAt,
        distOf, speedOf, timeDiffOf, taxicabDist, rowsBackwardsTime])⟩

/-! Claim C8. -/

/-- C8 counterexample: when rendering the map fails, the whole request
fails — the failure is not caught, it does not surface as Absent for the
map only, and the elevation plot is never attempted. -/
theorem C8_counterexample :
    indexPost taxicabDist ⟨false, true, true⟩ exOnePoint
      = .error (.typeError "map rendering failed") := by
  norm_num [indexPost, parse_gpx, exOnePoint, gpxData_singleSegment, mkRows, geodesicRaises,
    coordsOk, bind, Except.bind, rowAt, calculate_features, elevationDiffSum,
    create_map, create_elevation_plot]

/-- C8 (amended): only the elevation plot (and the speed plot, in its
never-called function) wrap rendering in try/except so a failure surfaces
as Absent (None) for that artifact. A map-rendering failure is uncaught
and aborts the request — the elevation plot is never attempted and
nothing is returned (likewise, a TypeError from `calculate_features`
aborts before any artifact, since the handler computes the summary
first); and the speed-distribution artifact is never attempted at all:
the handler's result does not depend on the speed renderer. -/
theorem C8_artifact_flow (dist : DistFn) (env : RenderEnv) (g : Gpx)
    (rows : List Row) (f : Features)
    (hok : parse_gpx dist g = .ok rows)
    (hf : calculate_features rows = .ok f) :
    (env.mapRenderOk = true → indexPost dist env g = .ok
      { total_distance := f.total_distance
        average_speed := f.average_speed
        total_elevation_gain := f.total_elevation_gain
        map_file_path := "static/maps/map.html"
        plot_file_path := if env.elevationRenderOk then
          some "static/images/elevation_plot.png" else none }) ∧
    (env.mapRenderOk = false → indexPost dist env g
        = .error (.typeError "map rendering failed")) ∧
    (∀ b c, indexPost dist ⟨env.mapRenderOk, env.elevationRenderOk, b⟩ g
        = indexPost dist ⟨env.mapRenderOk, env.elevationRenderOk, c⟩ g) := by
  refine ⟨?_, ?_, ?_⟩
  · intro hm
    simp [indexPost, hok, hf, create_map, hm, create_elevation_plot, bind, Except.bind]
  · intro hm
    simp [indexPost, hok, hf, create_map, hm, bind, Except.bind]
  · intro b c
    rfl

/-- The row the builder produces for `exOnePoint`. -/
def rowsOnePoint : List Row := [⟨some 0, some 0, some 0, none, 0, PFloat.nan⟩]

/-- Witness for C8: the amended theorem applied to the concrete one-point
track (whose summarization completes) with a failing elevation renderer. -/
theorem C8_artifact_flow_witness :
    parse_gpx taxicabDist exOnePoint = .ok rowsOnePoint ∧
    calculate_features rowsOnePoint = .ok ⟨0, PFloat.nan, 0⟩ ∧
    (((⟨true, false, true⟩ : RenderEnv).mapRenderOk = true →
        indexPost taxicabDist ⟨true, false, true⟩ exOnePoint = .ok
          { total_distance := (⟨0, PFloat.nan, 0⟩ : Features).total_distance
            average_speed := (⟨0, PFloat.nan, 0⟩ : Features).average_speed
            total_elevation_gain := (⟨0, PFloat.nan, 0⟩ : Features).total_elevation_gain
            map_file_path := "static/maps/map.html"
            plot_file_path := if (⟨true, false, true⟩ : RenderEnv).elevationRenderOk then
              some "static/images/elevation_plot.png" else none }) ∧
     ((⟨true, false, true⟩ : RenderEnv).mapRenderOk = false →
        indexPost taxicabDist ⟨true, false, true⟩ exOnePoint
          = .error (.typeError "map rendering failed")) ∧
     (∀ b c, indexPost taxicabDist ⟨true, false, b⟩ exOnePoint
         = indexPost taxicabDist ⟨true, false, c⟩ exOnePoint)) :=
  ⟨by norm_num [parse_gpx, exOnePoint, gpxData_singleSegment, mkRows, geodesicRaises,
      coordsOk, bind, Except.bind, rowAt, rowsOnePoint],
   by norm_num [calculate_features, elevationDiffSum, elevationGainRaw, rowsOnePoint,
      pmean, validCells, PFloat.isna, PFloat.mul36, pround2, round2, roundHalfEven],
   C8_artifact_flow taxicabDist ⟨true, false, true⟩ exOnePoint rowsOnePoint ⟨0, PFloat.nan, 0⟩
     (by norm_num [parse_gpx, exOnePoint, gpxData_singleSegment, mkRows, geodesicRaises,
        coordsOk, bind, Except.bind, rowAt, rowsOnePoint])
     (by norm_num [calculate_features, elevationDiffSum, elevationGainRaw, rowsOnePoint,
        pmean, validCells, PFloat.isna, PFloat.mul36, pround2, round2, roundHalfEven])⟩

/-! Claim C9. -/

/-- C9: the DataFrame has one row per point; the rows that encode
segments (all but the final one) number max(0, N−1); the final row
carries distance 0 and contributes nothing to the distance total. -/
theorem C9_segment_count (dist : DistFn) (g : Gpx) (rows : List Row)
    (hok : parse_gpx dist g = .ok rows) :
    rows.length = (gpxData g).length ∧
    (rows.dropLast.length : ℤ) = max (0 : ℤ) (((gpxData g).length : ℤ) - 1) ∧
    (∀ r, rows.getLast? = some r → r.distance = 0) ∧
    (rows.map Row.distance).sum = (rows.dropLast.map Row.distance).sum := by
  obtain ⟨hrows, hne, -⟩ := parse_ok_eq dist g rows hok
  have hlen : rows.length = (gpxData g).length := by rw [hrows, mkRowsP_length]
  have hlast : ∀ r, rows.getLast? = some r → r.distance = 0 := by
    rw [hrows]
    exact mkRowsP_getLast_distance dist _ (gpxData g)
  have hpos : 0 < (gpxData g).length := List.length_pos.mpr hne
  have hrne : rows ≠ [] := by
    intro hcon
    rw [hcon] at hlen
    simp at hlen
    omega
  refine ⟨hlen, ?_, hlast, ?_⟩
  · rw [List.length_dropLast, hlen, max_eq_right (by omega)]
    omega
  · have hdecomp := List.dropLast_append_getLast hrne
    have hlast0 : (rows.getLast hrne).distance = 0 :=
      hlast _ (List.getLast?_eq_getLast_of_ne_nil hrne)
    calc (rows.map Row.distance).sum
        = ((rows.dropLast ++ [rows.getLast hrne]).map Row.distance).sum := by rw [hdecomp]
      _ = (rows.dropLast.map Row.distance).sum + (rows.getLast hrne).distance := by
            simp
      _ = (rows.dropLast.map Row.distance).sum := by rw [hlast0, add_zero]

/-- Witness for C9: the theorem applied to the concrete three-point
track. -/
theorem C9_segment_count_witness :
    parse_gpx taxicabDist exPartialTime = .ok rowsPartialTime ∧
    (rowsPartialTime.length = (gpxData exPartialTime).length ∧
     (rowsPartialTime.dropLast.length : ℤ)
       = max (0 : ℤ) (((gpxData exPartialTime).length : ℤ) - 1) ∧
     (∀ r, rowsPartialTime.getLast? = some r → r.distance = 0) ∧
     (rowsPartialTime.map Row.distance).sum
       = (rowsPartialTime.dropLast.map Row.distance).sum) :=
  ⟨by norm_num [parse_gpx, exPartialTime, gpxData_singleSegment, mkRows, geodesicRaises, coordsOk, bind, Except.bind, rowAt,
      distOf, speedOf, timeDiffOf, taxicabDist, rowsPartialTime],
   C9_segment_count taxicabDist exPartialTime rowsPartialTime
     (by norm_num [parse_gpx, exPartialTime, gpxData_singleSegment, mkRows, geodesicRaises, coordsOk, bind, Except.bind, rowAt,
        distOf, speedOf, timeDiffOf, taxicabDist, rowsPartialTime])⟩

/-! Claim C10. -/

/-- C10: the parser flattens every track and every segment into one
ordered point sequence — parsing the structured document is identical to
parsing a document with all points in a single segment — and the row at
any index i draws its distance from flattened points i and i+1, so a
distance (and, with timestamps, a speed) is computed across the border
between two GPX segments as if the route were continuous. -/
theorem C10_flattening (dist : DistFn) (g : Gpx) :
    gpxData g = (g.tracks.map fun t => (t.segments.map GpxSegment.points).flatten).flatten ∧
    parse_gpx dist g = parse_gpx dist (singleSegmentGpx (gpxData g)) ∧
    (∀ rows i p q, parse_gpx dist g = .ok rows →
      (gpxData g)[i]? = some p → (gpxData g)[i+1]? = some q →
      q.latitude.isSome = true → q.longitude.isSome = true →
      ∃ r, rows[i]? = some r ∧
        r.distance = dist (p.latitude.getD 0, p.longitude.getD 0)
                          (q.latitude.getD 0, q.longitude.getD 0)) := by
  refine ⟨gpxData_eq_flatten g, ?_, ?_⟩
  · unfold parse_gpx
    rw [gpxData_singleSegment]
  · intro rows i p q hok hp hq hqlat hqlon
    refine ⟨rowAt dist ((gpxData g).any fun p => p.time.isSome) p (some q), ?_, ?_⟩
    · rw [parse_rows_getElem dist g rows hok i, hp, hq]
      rfl
    · show (rowAt dist _ p (some q)).distance = _
      simp [rowAt, distOf, coordsOk, hqlat, hqlon]

/-- The rows the builder produces for `exTwoSegments`. -/
def rowsTwoSegments : List Row :=
  [⟨some 0, some 0, none, none, 1, PFloat.nan⟩,
   ⟨some 0, some 1, none, none, 0, PFloat.nan⟩]

/-- Witness for C10: across the border of the two one-point segments of
`exTwoSegments`, the first row's distance is the distance between the
last point of segment 1 and the first point of segment 2. -/
theorem C10_flattening_witness :
    parse_gpx taxicabDist exTwoSegments = .ok rowsTwoSegments ∧
    ∃ r, rowsTwoSegments[0]? = some r ∧
      r.distance = taxicabDist (0, 0) (0, 1) := by
  have hok : parse_gpx taxicabDist exTwoSegments = .ok rowsTwoSegments := by
    norm_num [parse_gpx, exTwoSegments, gpxData, mkRows, geodesicRaises, coordsOk, bind, Except.bind, rowAt,
      distOf, taxicabDist, rowsTwoSegments]
  have h := (C10_flattening taxicabDist exTwoSegments).2.2 rowsTwoSegments 0
    ⟨some 0, some 0, none, none⟩ ⟨some 0, some 1, none, none⟩ hok rfl rfl rfl rfl
  exact ⟨hok, by simpa using h⟩

end GPXApp
